import Mathlib

/-!
Shallow embedding of the genaJam MIDI player firmware
(src/genajam_midi_file_player/genajam_midi_file_player.ino).

The firmware runs on an ATmega1284 (AVR), where `int` is 16 bits wide.
The two finite state machines `lcdFSM` and `midiFSM`, the MIDI output
callback `midiCallback` and the silence helper `midiSilence` are embedded
as pure Lean functions.  Machine integers are modelled as `Nat` with
explicit reduction modulo 2^8 (`uint8_t`) and 2^16 (`uint16_t`) where the
C code can overflow or truncate.  External collaborators (SD card, LCD,
debounced buttons, the MD_MIDIFile sequencer) are modelled as inputs per
tick and as an abstract sequencer state, following the narrow interfaces
the sketch uses.
-/

/-- Value of a C `uint8_t`: reduction modulo 2^8. -/
def u8 (x : Nat) : Nat := x % 256

/-- Value of a C `uint16_t` / AVR `unsigned int`: reduction modulo 2^16. -/
def u16 (x : Nat) : Nat := x % 65536

/-- The AVR evaluation of `x - 1` in 16-bit unsigned arithmetic
(`plCount - 1` where `plCount` is `uint16_t`): wraps to 65535 at 0. -/
def u16dec (x : Nat) : Nat := (x + 65535) % 65536

/-- `enum lcd_state { LSBegin, LSSelect, LSShowFile }`. -/
inductive lcd_state : Type
  | LSBegin | LSSelect | LSShowFile
deriving DecidableEq

/-- `enum midi_state { MSBegin, MSLoad, MSOpen, MSProcess, MSClose }`.
(`MSOpen` is declared in the source but never used by `midiFSM`.) -/
inductive midi_state : Type
  | MSBegin | MSLoad | MSOpen | MSProcess | MSClose
deriving DecidableEq

/-- `enum seq_state { LCDSeq, MIDISeq }` — the dispatcher mode. -/
inductive seq_state : Type
  | LCDSeq | MIDISeq
deriving DecidableEq

/-- One tick's debounced readings of the five LCD buttons, as consumed by
`lcdFSM` (`BTN[i]->read() == MD_UISwitch::KEY_PRESS`).  Field order follows
the comment in the source: Select, Left, Up, Down, Right. -/
structure NavButtons : Type where
  select : Bool
  left : Bool
  up : Bool
  down : Bool
  right : Bool
deriving DecidableEq

/-- Persistent state of `lcdFSM`: the `static lcd_state s`, the
`static uint8_t plIndex` cursor, and the shared global buffer `fname`
(the selected file name, written in `LSShowFile` and read by `midiFSM`). -/
structure LcdSt : Type where
  s : lcd_state
  plIndex : Nat
  fname : String
deriving DecidableEq

/-- The two availability markers printed by the `LSShowFile` state
(source lines 238–240):
`LCD.print(plIndex == 0 ? ' ' : '<'); LCD.print(plIndex == plCount-1 ? ' ' : '>')`.
`plIndex` (`uint8_t`) and `plCount - 1` (16-bit unsigned) are compared as
16-bit unsigned values. -/
def showFileMarkers (plCount plIndex : Nat) : Char × Char :=
  (if plIndex = 0 then ' ' else '<',
   if plIndex = u16dec plCount then ' ' else '>')

/-- One call of `seq_state lcdFSM(seq_state curSS)`.

Inputs: `plCount` (the `uint16_t` global), `entries i` (the 13-byte record
at offset `FNAME_SIZE*i` of PLAYLIST.TXT, i.e. the playlist entry at index
`i`; the `plFile.seekSet`/`plFile.read` pair), the button readings for
this tick, the persistent state and the current mode.

Output: new persistent state, returned mode, and the display action of
this tick (`some (name, leftMarker, rightMarker)` when the `LSShowFile`
state painted an entry).  The fatal-error path of `LSBegin` (playlist file
fails to open) halts the device and is not modelled; the playlist file is
open for every tick modelled here. -/
def lcdFSM (plCount : Nat) (entries : Nat → String) (btn : NavButtons)
    (st : LcdSt) (curSS : seq_state) :
    LcdSt × seq_state × Option (String × Char × Char) :=
  match st.s with
  | .LSBegin =>
      ({ st with s := .LSShowFile }, curSS, none)
  | .LSShowFile =>
      ({ st with fname := entries st.plIndex, s := .LSSelect }, curSS,
        some (entries st.plIndex,
          (showFileMarkers plCount st.plIndex).1,
          (showFileMarkers plCount st.plIndex).2))
  | .LSSelect =>
      if btn.select then
        ({ st with s := .LSBegin }, .MIDISeq, none)
      else if btn.left then
        ({ st with
            plIndex := if st.plIndex ≠ 0 then st.plIndex - 1 else st.plIndex,
            s := .LSShowFile }, curSS, none)
      else if btn.up then
        ({ st with plIndex := 0, s := .LSShowFile }, curSS, none)
      else if btn.down then
        ({ st with plIndex := u8 (u16dec plCount), s := .LSShowFile }, curSS, none)
      else if btn.right then
        ({ st with
            plIndex := if st.plIndex ≠ u16dec plCount
                       then u8 (st.plIndex + 1) else st.plIndex,
            s := .LSShowFile }, curSS, none)
      else (st, curSS, none)

/-- A `midi_event` of the MD_MIDIFile library as seen by the callback:
track, channel, byte count `size` (`uint8_t`, at least 1 for events the
library delivers) and the data bytes. -/
structure midi_event : Type where
  track : Nat
  channel : Nat
  size : Nat
  data : List Nat
deriving DecidableEq

/-- `void midiCallback(midi_event *pev)` with `DEBUG_ON == 0`: the bytes
written to the `Serial1` MIDI output transport.  When
`0x80 <= data[0] && data[0] <= 0xe0` (a channel-coded status byte) the
status is OR-ed with the event's channel and followed by the remaining
`size-1` data bytes; otherwise all `size` bytes go out unmodified. -/
def midiCallback (pev : midi_event) : List Nat :=
  if 0x80 ≤ pev.data.headD 0 ∧ pev.data.headD 0 ≤ 0xe0 then
    (pev.data.headD 0 ||| pev.channel) :: (pev.data.drop 1).take (pev.size - 1)
  else
    pev.data.take pev.size

/-- `void midiSilence(void)`: the bytes emitted by building one event
`data = [0xb0, 120, 0]`, `size = 3` and feeding it through `midiCallback`
for every channel 0..15 (an "all sound off" control change per channel). -/
def midiSilence : List Nat :=
  ((List.range 16).map (fun ch => midiCallback ⟨0, ch, 3, [0xb0, 120, 0]⟩)).flatten

/-- Abstract state of the MD_MIDIFile sequencer collaborator, as far as
the sketch drives it: the pause flag (`SMF.pause(b)`) and an abstract
playback position (`SMF.restart()` returns it to the start, modelled as 0;
each `SMF.getNextEvent()` call advances it by one). -/
structure SmfSt : Type where
  paused : Bool
  pos : Nat
deriving DecidableEq

/-- Persistent state of `midiFSM`: the `static midi_state s` plus the
sequencer state it drives. -/
structure MidiSt : Type where
  s : midi_state
  smf : SmfSt
deriving DecidableEq

/-- One tick's inputs to `midiFSM` from its collaborators: the result
`SMF.load(fname)` would return this tick, `SMF.isEOF()`, the Boolean
result of `SMF.getNextEvent()` (true when a display-relevant event was
processed), and the four transport button readings (left = Rewind,
right = Stop, up = Pause, down = Resume). -/
structure MidiEnv : Type where
  loadErr : Int
  eof : Bool
  gotEvent : Bool
  btnRewind : Bool
  btnStop : Bool
  btnPause : Bool
  btnResume : Bool
deriving DecidableEq

/-- `MD_MIDIFile::E_OK`, the success code of `SMF.load`. -/
def eOK : Int := 0

/-- Observable calls `midiFSM` makes on its collaborators in one tick, in
order: `SMF.load(fname)`, the `LCDErrMessage("SMF error %03d", false)`
report of a failed load, `SMF.getNextEvent()`, the tempo/time-signature
display refresh, `SMF.close()`, `midiSilence()`, `SMF.restart()`. -/
inductive MidiAct : Type
  | load (fname : String)
  | errMsg (err : Int)
  | getNext
  | showTempo
  | closeFile
  | silence
  | restart
deriving DecidableEq

/-- One call of `seq_state midiFSM(seq_state curSS)`.

Output: new persistent state, returned mode, and the ordered list of
collaborator calls made during the tick.  `MSBegin` paints the static
transport chrome (no modelled action) and moves to `MSLoad`.  `MSLoad`
loads the shared `fname`; on `E_OK` it moves to `MSProcess`, otherwise it
reports the error and moves to `MSClose`.  `MSProcess` first advances the
sequencer (one `getNextEvent` when not at EOF, refreshing the display
when it returns true; at EOF it moves to `MSClose`), then polls the
transport buttons in source order Rewind, Stop, Pause, Resume, acting on
the first one pressed.  `MSClose` closes the file, silences every
channel, hands the mode back to `LCDSeq` and falls through to reset the
state to `MSBegin`. -/
def midiFSM (fname : String) (env : MidiEnv) (st : MidiSt) (curSS : seq_state) :
    MidiSt × seq_state × List MidiAct :=
  match st.s with
  | .MSBegin =>
      ({ st with s := .MSLoad }, curSS, [])
  | .MSLoad =>
      if env.loadErr = eOK then
        ({ st with s := .MSProcess }, curSS, [.load fname])
      else
        ({ st with s := .MSClose }, curSS, [.load fname, .errMsg env.loadErr])
  | .MSProcess =>
      let step : midi_state × SmfSt × List MidiAct :=
        if !env.eof then
          (.MSProcess, { st.smf with pos := st.smf.pos + 1 },
            if env.gotEvent then [.getNext, .showTempo] else [.getNext])
        else
          (.MSClose, st.smf, [])
      let s1 := step.1
      let smf1 := step.2.1
      let acts1 := step.2.2
      if env.btnRewind then
        (⟨s1, { smf1 with pos := 0 }⟩, curSS, acts1 ++ [.silence, .restart])
      else if env.btnStop then
        (⟨.MSClose, smf1⟩, curSS, acts1)
      else if env.btnPause then
        (⟨s1, { smf1 with paused := true }⟩, curSS, acts1 ++ [.silence])
      else if env.btnResume then
        (⟨s1, { smf1 with paused := false }⟩, curSS, acts1)
      else (⟨s1, smf1⟩, curSS, acts1)
  | .MSClose =>
      ({ st with s := .MSBegin }, .LCDSeq, [.closeFile, .silence])
  | .MSOpen =>
      ({ st with s := .MSBegin }, curSS, [])

/-- The reading of five navigation buttons that the source's
else-if chain honours: only the first pressed button in the priority
order Select, Left, Up, Down, Right. -/
def navFirst (b : NavButtons) : NavButtons :=
  if b.select then ⟨true, false, false, false, false⟩
  else if b.left then ⟨false, true, false, false, false⟩
  else if b.up then ⟨false, false, true, false, false⟩
  else if b.down then ⟨false, false, false, true, false⟩
  else if b.right then ⟨false, false, false, false, true⟩
  else ⟨false, false, false, false, false⟩

/-- The transport-button readings that the source's else-if chain honours:
only the first pressed button in the priority order Rewind, Stop, Pause,
Resume; the sequencer inputs are untouched. -/
def midiFirst (e : MidiEnv) : MidiEnv :=
  if e.btnRewind then
    { e with btnStop := false, btnPause := false, btnResume := false }
  else if e.btnStop then
    { e with btnPause := false, btnResume := false }
  else if e.btnPause then
    { e with btnResume := false }
  else e

/-- No navigation button pressed this tick. -/
def navNone : NavButtons := ⟨false, false, false, false, false⟩

/-- Only Left pressed (previous file). -/
def navLeft : NavButtons := ⟨false, true, false, false, false⟩

/-- Only Right pressed (next file). -/
def navRight : NavButtons := ⟨false, false, false, false, true⟩

/-- Only Up pressed (first file). -/
def navUp : NavButtons := ⟨false, false, true, false, false⟩

/-- Only Down pressed (last file). -/
def navDown : NavButtons := ⟨false, false, false, true, false⟩

/-- Only Select pressed (confirm). -/
def navSelect : NavButtons := ⟨true, false, false, false, false⟩

/-- Invariant tying the shared `fname` buffer to the cursor: whenever
`lcdFSM` sits in `LSSelect`, `fname` holds the playlist entry at the
cursor (the preceding `LSShowFile` tick wrote it there). -/
def NavInv (entries : Nat → String) (st : LcdSt) : Prop :=
  st.s = .LSSelect → st.fname = entries st.plIndex

/-- Concrete playlist used by the witnesses. -/
def entA : Nat → String := fun i =>
  if i = 0 then "A.MID" else if i = 1 then "B.MID" else "C.MID"

/-- Claim C1 fails as stated: with `plCount = 257` (legal for the
`uint16_t` count) and cursor 0, a Down press stores `(257-1) % 256 = 0`
into the `uint8_t` cursor, not `n - 1 = 256`. -/
theorem lcdFSM_down_truncates :
    (lcdFSM 257 entA navDown ⟨.LSSelect, 0, ""⟩ .LCDSeq).1.plIndex ≠ 257 - 1 := by
  decide

/-- Claim C1 (amended to playlists of at most 256 entries, the range in
which the 8-bit cursor cannot truncate): for `1 ≤ n ≤ 256` and a cursor
`c ≤ n-1`, one `LSSelect` tick updates the cursor to `max(c-1,0)` on
Left, `min(c+1,n-1)` on Right, `0` on Up and `n-1` on Down, and each of
these steps leaves the cursor in `[0, n-1]`. -/
theorem lcdFSM_cursor_clamped (n c : Nat) (entries : Nat → String)
    (fn : String) (ss : seq_state)
    (h1 : 1 ≤ n) (h2 : n ≤ 256) (hc : c ≤ n - 1) :
    (lcdFSM n entries navLeft ⟨.LSSelect, c, fn⟩ ss).1.plIndex = max (c - 1) 0 ∧
    (lcdFSM n entries navRight ⟨.LSSelect, c, fn⟩ ss).1.plIndex = min (c + 1) (n - 1) ∧
    (lcdFSM n entries navUp ⟨.LSSelect, c, fn⟩ ss).1.plIndex = 0 ∧
    (lcdFSM n entries navDown ⟨.LSSelect, c, fn⟩ ss).1.plIndex = n - 1 ∧
    (lcdFSM n entries navLeft ⟨.LSSelect, c, fn⟩ ss).1.plIndex ≤ n - 1 ∧
    (lcdFSM n entries navRight ⟨.LSSelect, c, fn⟩ ss).1.plIndex ≤ n - 1 ∧
    (lcdFSM n entries navUp ⟨.LSSelect, c, fn⟩ ss).1.plIndex ≤ n - 1 ∧
    (lcdFSM n entries navDown ⟨.LSSelect, c, fn⟩ ss).1.plIndex ≤ n - 1 := by
  simp only [lcdFSM, navLeft, navRight, navUp, navDown, u8, u16dec]
  norm_num
  split_ifs <;> omega

/-- Witness for `lcdFSM_cursor_clamped` at `n = 3`, `c = 1`. -/
theorem lcdFSM_cursor_clamped_witness :
    (lcdFSM 3 entA navLeft ⟨.LSSelect, 1, ""⟩ .LCDSeq).1.plIndex = max (1 - 1) 0 ∧
    (lcdFSM 3 entA navRight ⟨.LSSelect, 1, ""⟩ .LCDSeq).1.plIndex = min (1 + 1) (3 - 1) ∧
    (lcdFSM 3 entA navUp ⟨.LSSelect, 1, ""⟩ .LCDSeq).1.plIndex = 0 ∧
    (lcdFSM 3 entA navDown ⟨.LSSelect, 1, ""⟩ .LCDSeq).1.plIndex = 3 - 1 ∧
    (lcdFSM 3 entA navLeft ⟨.LSSelect, 1, ""⟩ .LCDSeq).1.plIndex ≤ 3 - 1 ∧
    (lcdFSM 3 entA navRight ⟨.LSSelect, 1, ""⟩ .LCDSeq).1.plIndex ≤ 3 - 1 ∧
    (lcdFSM 3 entA navUp ⟨.LSSelect, 1, ""⟩ .LCDSeq).1.plIndex ≤ 3 - 1 ∧
    (lcdFSM 3 entA navDown ⟨.LSSelect, 1, ""⟩ .LCDSeq).1.plIndex ≤ 3 - 1 :=
  lcdFSM_cursor_clamped 3 1 entA "" .LCDSeq (by decide) (by decide) (by decide)

/-- Claim C10: the cursor is a `uint8_t` while `plCount` is `uint16_t`,
so cursor arithmetic is modulo 256: Down stores `(n-1) % 256`, for
`n > 256` the cursor can never equal `n-1`, and a Right press at cursor
255 wraps to 0. -/
theorem lcdFSM_cursor_mod256 (n c : Nat) (entries : Nat → String)
    (fn : String) (ss : seq_state)
    (h1 : 1 ≤ n) (h2 : n ≤ 65535) (hc : c ≤ 255) :
    (lcdFSM n entries navDown ⟨.LSSelect, c, fn⟩ ss).1.plIndex = (n - 1) % 256 ∧
    (256 < n → c ≠ n - 1) ∧
    (256 < n →
      (lcdFSM n entries navRight ⟨.LSSelect, 255, fn⟩ ss).1.plIndex = 0) := by
  simp only [lcdFSM, navDown, navRight, u8, u16dec]
  norm_num
  refine ⟨by omega, by omega, fun hn => ?_⟩
  omega

/-- Witness for `lcdFSM_cursor_mod256` at `n = 300`, `c = 255`. -/
theorem lcdFSM_cursor_mod256_witness :
    (lcdFSM 300 entA navDown ⟨.LSSelect, 255, ""⟩ .LCDSeq).1.plIndex = (300 - 1) % 256 ∧
    (256 < 300 → 255 ≠ 300 - 1) ∧
    (256 < 300 →
      (lcdFSM 300 entA navRight ⟨.LSSelect, 255, ""⟩ .LCDSeq).1.plIndex = 0) :=
  lcdFSM_cursor_mod256 300 255 entA "" .LCDSeq (by decide) (by decide) (by decide)

/-- Claim C8: the `LSShowFile` tick displays the entry at the cursor with
the left marker blank exactly when the cursor is 0, the right marker
blank exactly when the cursor equals `plCount - 1`, and both blank for a
one-entry playlist. -/
theorem showFile_markers_spec (n c : Nat) (entries : Nat → String)
    (fn : String) (ss : seq_state) (h1 : 1 ≤ n) (h2 : n ≤ 65535) :
    ((showFileMarkers n c).1 = ' ' ↔ c = 0) ∧
    ((showFileMarkers n c).2 = ' ' ↔ c = n - 1) ∧
    (n = 1 → c ≤ n - 1 → showFileMarkers n c = (' ', ' ')) ∧
    (lcdFSM n entries navNone ⟨.LSShowFile, c, fn⟩ ss).2.2 =
      some (entries c, (showFileMarkers n c).1, (showFileMarkers n c).2) := by
  have hdec : u16dec n = n - 1 := by unfold u16dec; omega
  refine ⟨?_, ?_, ?_, rfl⟩
  · show (if c = 0 then ' ' else '<') = ' ' ↔ c = 0
    constructor
    · intro hch
      by_contra hne
      rw [if_neg hne] at hch
      exact absurd hch (by decide)
    · intro h
      rw [if_pos h]
  · show (if c = u16dec n then ' ' else '>') = ' ' ↔ c = n - 1
    rw [hdec]
    constructor
    · intro hch
      by_contra hne
      rw [if_neg hne] at hch
      exact absurd hch (by decide)
    · intro h
      rw [if_pos h]
  · intro hn hcle
    subst hn
    have hc0 : c = 0 := by omega
    subst hc0
    unfold showFileMarkers
    rw [hdec]
    simp

/-- Witness for `showFile_markers_spec` at `n = 1`, `c = 0`. -/
theorem showFile_markers_spec_witness :
    ((showFileMarkers 1 0).1 = ' ' ↔ (0 : Nat) = 0) ∧
    ((showFileMarkers 1 0).2 = ' ' ↔ (0 : Nat) = 1 - 1) ∧
    ((1 : Nat) = 1 → (0 : Nat) ≤ 1 - 1 → showFileMarkers 1 0 = (' ', ' ')) ∧
    (lcdFSM 1 entA navNone ⟨.LSShowFile, 0, ""⟩ .LCDSeq).2.2 =
      some (entA 0, (showFileMarkers 1 0).1, (showFileMarkers 1 0).2) :=
  showFile_markers_spec 1 0 entA "" .LCDSeq (by decide) (by decide)

/-- Claim C2: every `lcdFSM` tick preserves the invariant that in
`LSSelect` the shared `fname` buffer holds the entry at the cursor, and a
Select press in `LSSelect` returns mode `MIDISeq`, resets the internal
state to `LSBegin` for the next re-entry, and leaves `fname` equal to the
playlist entry at the cursor (which is unchanged). -/
theorem lcdFSM_select_confirms (plCount : Nat) (entries : Nat → String)
    (btn : NavButtons) (st : LcdSt) (curSS : seq_state)
    (hinv : NavInv entries st) :
    NavInv entries (lcdFSM plCount entries btn st curSS).1 ∧
    (st.s = .LSSelect → btn.select = true →
      (lcdFSM plCount entries btn st curSS).2.1 = .MIDISeq ∧
      (lcdFSM plCount entries btn st curSS).1.s = .LSBegin ∧
      (lcdFSM plCount entries btn st curSS).1.fname = entries st.plIndex ∧
      (lcdFSM plCount entries btn st curSS).1.plIndex = st.plIndex) := by
  obtain ⟨s, idx, fn⟩ := st
  obtain ⟨bs, bl, bu, bd, br⟩ := btn
  cases s <;>
    cases bs <;> cases bl <;> cases bu <;> cases bd <;> cases br <;>
      simp_all [lcdFSM, NavInv]

/-- Witness for `lcdFSM_select_confirms`: Select pressed at cursor 0 of
the three-entry playlist `entA`. -/
theorem lcdFSM_select_confirms_witness :
    (lcdFSM 3 entA navSelect ⟨.LSSelect, 0, "A.MID"⟩ .LCDSeq).2.1 = .MIDISeq ∧
    (lcdFSM 3 entA navSelect ⟨.LSSelect, 0, "A.MID"⟩ .LCDSeq).1.s = .LSBegin ∧
    (lcdFSM 3 entA navSelect ⟨.LSSelect, 0, "A.MID"⟩ .LCDSeq).1.fname =
      entA (LcdSt.plIndex ⟨.LSSelect, 0, "A.MID"⟩) ∧
    (lcdFSM 3 entA navSelect ⟨.LSSelect, 0, "A.MID"⟩ .LCDSeq).1.plIndex =
      LcdSt.plIndex ⟨.LSSelect, 0, "A.MID"⟩ :=
  (lcdFSM_select_confirms 3 entA navSelect ⟨.LSSelect, 0, "A.MID"⟩ .LCDSeq
    (fun _ => rfl)).2 rfl rfl

/-- Claim C9: both FSMs honour at most one button per tick, in the
source's fixed priority order — Select, Left, Up, Down, Right for
navigation and Rewind, Stop, Pause, Resume for playback: a tick with any
combination of pressed buttons behaves exactly like the tick in which
only the highest-priority pressed button is seen. -/
theorem buttons_priority :
    (∀ (plCount : Nat) (entries : Nat → String) (b : NavButtons)
        (st : LcdSt) (curSS : seq_state),
      lcdFSM plCount entries b st curSS =
        lcdFSM plCount entries (navFirst b) st curSS) ∧
    (∀ (fn : String) (e : MidiEnv) (st : MidiSt) (curSS : seq_state),
      midiFSM fn e st curSS = midiFSM fn (midiFirst e) st curSS) := by
  constructor
  · intro plCount entries b st curSS
    obtain ⟨bs, bl, bu, bd, br⟩ := b
    obtain ⟨s, idx, fn⟩ := st
    cases s <;> cases bs <;> cases bl <;> cases bu <;> cases bd <;> cases br <;> rfl
  · intro fn e st curSS
    obtain ⟨le, eo, ge, br, bst, bp, brs⟩ := e
    obtain ⟨s, smf⟩ := st
    cases s <;> cases br <;> cases bst <;> cases bp <;> cases brs <;> rfl

/-- Claim C3: when `SMF.load` reports any failure code, the `MSLoad` tick
goes straight to `MSClose` (never `MSProcess`), reports the error on the
display, advances no sequencer event and leaves the mode unchanged; the
following `MSClose` tick hands the mode back to `LCDSeq` and resets the
state to `MSBegin`, still without advancing any event. -/
theorem midiFSM_load_failure (fn : String) (env1 env2 : MidiEnv)
    (st : MidiSt) (c : seq_state)
    (hs : st.s = .MSLoad) (he : env1.loadErr ≠ eOK) :
    (midiFSM fn env1 st c).1.s = .MSClose ∧
    (midiFSM fn env1 st c).2.1 = c ∧
    MidiAct.getNext ∉ (midiFSM fn env1 st c).2.2 ∧
    MidiAct.errMsg env1.loadErr ∈ (midiFSM fn env1 st c).2.2 ∧
    (midiFSM fn env1 st c).1.smf = st.smf ∧
    (midiFSM fn env2 (midiFSM fn env1 st c).1 c).2.1 = .LCDSeq ∧
    (midiFSM fn env2 (midiFSM fn env1 st c).1 c).1.s = .MSBegin ∧
    MidiAct.getNext ∉ (midiFSM fn env2 (midiFSM fn env1 st c).1 c).2.2 ∧
    MidiAct.silence ∈ (midiFSM fn env2 (midiFSM fn env1 st c).1 c).2.2 := by
  obtain ⟨s, smf⟩ := st
  obtain rfl : s = midi_state.MSLoad := hs
  simp [midiFSM, he]

/-- Claim C4: a Stop press (with the higher-priority Rewind unpressed)
during `MSProcess` moves the FSM to `MSClose` with the mode unchanged;
the following `MSClose` tick returns mode `LCDSeq` after emitting the
silence event, which is one all-sound-off control change on each of the
16 MIDI channels. -/
theorem midiFSM_stop_closes (fn : String) (env1 env2 : MidiEnv)
    (st : MidiSt) (c : seq_state)
    (hs : st.s = .MSProcess) (hstop : env1.btnStop = true)
    (hrw : env1.btnRewind = false) :
    (midiFSM fn env1 st c).1.s = .MSClose ∧
    (midiFSM fn env1 st c).2.1 = c ∧
    (midiFSM fn env2 (midiFSM fn env1 st c).1 c).2.1 = .LCDSeq ∧
    (midiFSM fn env2 (midiFSM fn env1 st c).1 c).1.s = .MSBegin ∧
    MidiAct.silence ∈ (midiFSM fn env2 (midiFSM fn env1 st c).1 c).2.2 ∧
    midiSilence =
      ((List.range 16).map (fun ch => [0xb0 ||| ch, 120, 0])).flatten := by
  obtain ⟨s, smf⟩ := st
  obtain rfl : s = midi_state.MSProcess := hs
  obtain ⟨le, eo, ge, br, bst, bp, brs⟩ := env1
  obtain rfl : br = false := hrw
  obtain rfl : bst = true := hstop
  cases eo <;> cases ge <;> simp [midiFSM] <;> decide

/-- Claim C6: in `MSProcess` (Rewind and Stop unpressed) a Pause press
sets the sequencer pause flag and emits the silence event; a Resume press
clears the pause flag, emits no silence event, and changes nothing else —
the tick is identical to a no-button tick except for the cleared flag. -/
theorem midiFSM_pause_resume (fn : String) (env : MidiEnv)
    (st : MidiSt) (c : seq_state)
    (hs : st.s = .MSProcess) (hrw : env.btnRewind = false)
    (hstop : env.btnStop = false) :
    (env.btnPause = true →
      (midiFSM fn env st c).1.smf.paused = true ∧
      MidiAct.silence ∈ (midiFSM fn env st c).2.2 ∧
      (midiFSM fn env st c).2.1 = c) ∧
    (env.btnPause = false → env.btnResume = true →
      (midiFSM fn env st c).1.smf.paused = false ∧
      MidiAct.silence ∉ (midiFSM fn env st c).2.2 ∧
      midiFSM fn env st c =
        (⟨(midiFSM fn { env with btnResume := false } st c).1.s,
          { (midiFSM fn { env with btnResume := false } st c).1.smf with
              paused := false }⟩,
         (midiFSM fn { env with btnResume := false } st c).2.1,
         (midiFSM fn { env with btnResume := false } st c).2.2)) := by
  obtain ⟨s, smf⟩ := st
  obtain rfl : s = midi_state.MSProcess := hs
  obtain ⟨le, eo, ge, br, bst, bp, brs⟩ := env
  obtain rfl : br = false := hrw
  obtain rfl : bst = false := hstop
  constructor
  · intro hp
    obtain rfl : bp = true := hp
    cases eo <;> cases ge <;> simp [midiFSM]
  · intro hp hr
    obtain rfl : bp = false := hp
    obtain rfl : brs = true := hr
    cases eo <;> cases ge <;> simp [midiFSM]

/-- Claim C7: a Rewind press during `MSProcess` leaves the mode
unchanged, stays in `MSProcess` while the file is not at EOF, resets the
sequencer position to the start and leaves the pause flag alone; apart
from appending the silence and restart calls, the tick transitions
exactly as the no-button tick does. -/
theorem midiFSM_rewind_frame (fn : String) (env : MidiEnv)
    (st : MidiSt) (c : seq_state)
    (hs : st.s = .MSProcess) (hrw : env.btnRewind = true) :
    (midiFSM fn env st c).2.1 = c ∧
    (env.eof = false → (midiFSM fn env st c).1.s = .MSProcess) ∧
    (midiFSM fn env st c).1.smf.pos = 0 ∧
    (midiFSM fn env st c).1.smf.paused = st.smf.paused ∧
    (midiFSM fn env st c).1.s =
      (midiFSM fn ⟨env.loadErr, env.eof, env.gotEvent, false, false, false, false⟩
        st c).1.s ∧
    (midiFSM fn env st c).2.2 =
      (midiFSM fn ⟨env.loadErr, env.eof, env.gotEvent, false, false, false, false⟩
        st c).2.2 ++ [MidiAct.silence, MidiAct.restart] := by
  obtain ⟨s, smf⟩ := st
  obtain rfl : s = midi_state.MSProcess := hs
  obtain ⟨le, eo, ge, br, bst, bp, brs⟩ := env
  obtain rfl : br = true := hrw
  cases eo <;> cases ge <;> simp [midiFSM]

/-- Claim C5: `midiCallback` forwards exactly `size` bytes: for an event
whose first data byte is a channel-coded status (`0x80..0xe0`) it sends
the status OR-ed with the event channel followed by the remaining
`size-1` data bytes, and any other event is forwarded unmodified. -/
theorem midiCallback_spec (pev : midi_event)
    (h1 : 1 ≤ pev.size) (h2 : pev.size ≤ pev.data.length) :
    ((0x80 ≤ pev.data.headD 0 ∧ pev.data.headD 0 ≤ 0xe0) →
      midiCallback pev =
        (pev.data.headD 0 ||| pev.channel) ::
          (pev.data.drop 1).take (pev.size - 1) ∧
      (midiCallback pev).length = pev.size) ∧
    (¬(0x80 ≤ pev.data.headD 0 ∧ pev.data.headD 0 ≤ 0xe0) →
      midiCallback pev = pev.data.take pev.size ∧
      (midiCallback pev).length = pev.size) := by
  constructor
  · intro h
    have heq : midiCallback pev =
        (pev.data.headD 0 ||| pev.channel) ::
          (pev.data.drop 1).take (pev.size - 1) := by
      unfold midiCallback
      rw [if_pos h]
    refine ⟨heq, ?_⟩
    rw [heq]
    simp [List.length_take, List.length_drop]
    omega
  · intro h
    have heq : midiCallback pev = pev.data.take pev.size := by
      unfold midiCallback
      rw [if_neg h]
    refine ⟨heq, ?_⟩
    rw [heq]
    simp [List.length_take]
    omega

/-- A concrete sequencer state for the witnesses. -/
def smf0 : SmfSt := ⟨false, 5⟩

/-- Tick inputs with `SMF.load` failing with code 7, no buttons. -/
def envFail : MidiEnv := ⟨7, false, false, false, false, false, false⟩

/-- Tick inputs with a successful load, events remaining, no buttons. -/
def envQuiet : MidiEnv := ⟨0, false, true, false, false, false, false⟩

/-- Tick inputs with only Stop pressed. -/
def envStop : MidiEnv := ⟨0, false, true, false, true, false, false⟩

/-- Tick inputs with only Pause pressed. -/
def envPause : MidiEnv := ⟨0, false, true, false, false, true, false⟩

/-- Tick inputs with only Resume pressed. -/
def envResume : MidiEnv := ⟨0, false, true, false, false, false, true⟩

/-- Tick inputs with only Rewind pressed. -/
def envRewind : MidiEnv := ⟨0, false, true, true, false, false, false⟩

/-- Witness for `midiFSM_load_failure`: load fails with code 7. -/
theorem midiFSM_load_failure_witness :
    (midiFSM "A.MID" envFail ⟨.MSLoad, smf0⟩ .MIDISeq).1.s = .MSClose ∧
    (midiFSM "A.MID" envFail ⟨.MSLoad, smf0⟩ .MIDISeq).2.1 = .MIDISeq ∧
    MidiAct.getNext ∉ (midiFSM "A.MID" envFail ⟨.MSLoad, smf0⟩ .MIDISeq).2.2 ∧
    MidiAct.errMsg envFail.loadErr ∈
      (midiFSM "A.MID" envFail ⟨.MSLoad, smf0⟩ .MIDISeq).2.2 ∧
    (midiFSM "A.MID" envFail ⟨.MSLoad, smf0⟩ .MIDISeq).1.smf = smf0 ∧
    (midiFSM "A.MID" envQuiet
      (midiFSM "A.MID" envFail ⟨.MSLoad, smf0⟩ .MIDISeq).1 .MIDISeq).2.1 = .LCDSeq ∧
    (midiFSM "A.MID" envQuiet
      (midiFSM "A.MID" envFail ⟨.MSLoad, smf0⟩ .MIDISeq).1 .MIDISeq).1.s = .MSBegin ∧
    MidiAct.getNext ∉ (midiFSM "A.MID" envQuiet
      (midiFSM "A.MID" envFail ⟨.MSLoad, smf0⟩ .MIDISeq).1 .MIDISeq).2.2 ∧
    MidiAct.silence ∈ (midiFSM "A.MID" envQuiet
      (midiFSM "A.MID" envFail ⟨.MSLoad, smf0⟩ .MIDISeq).1 .MIDISeq).2.2 :=
  midiFSM_load_failure "A.MID" envFail envQuiet ⟨.MSLoad, smf0⟩ .MIDISeq rfl (by decide)

/-- Witness for `midiFSM_stop_closes`: Stop pressed mid-playback. -/
theorem midiFSM_stop_closes_witness :
    (midiFSM "A.MID" envStop ⟨.MSProcess, smf0⟩ .MIDISeq).1.s = .MSClose ∧
    (midiFSM "A.MID" envStop ⟨.MSProcess, smf0⟩ .MIDISeq).2.1 = .MIDISeq ∧
    (midiFSM "A.MID" envQuiet
      (midiFSM "A.MID" envStop ⟨.MSProcess, smf0⟩ .MIDISeq).1 .MIDISeq).2.1 = .LCDSeq ∧
    (midiFSM "A.MID" envQuiet
      (midiFSM "A.MID" envStop ⟨.MSProcess, smf0⟩ .MIDISeq).1 .MIDISeq).1.s = .MSBegin ∧
    MidiAct.silence ∈ (midiFSM "A.MID" envQuiet
      (midiFSM "A.MID" envStop ⟨.MSProcess, smf0⟩ .MIDISeq).1 .MIDISeq).2.2 ∧
    midiSilence =
      ((List.range 16).map (fun ch => [0xb0 ||| ch, 120, 0])).flatten :=
  midiFSM_stop_closes "A.MID" envStop envQuiet ⟨.MSProcess, smf0⟩ .MIDISeq rfl rfl rfl

/-- Witness for `midiFSM_pause_resume`, applied once with Pause pressed
and once with Resume pressed. -/
theorem midiFSM_pause_resume_witness :
    ((midiFSM "A.MID" envPause ⟨.MSProcess, smf0⟩ .MIDISeq).1.smf.paused = true ∧
     MidiAct.silence ∈ (midiFSM "A.MID" envPause ⟨.MSProcess, smf0⟩ .MIDISeq).2.2 ∧
     (midiFSM "A.MID" envPause ⟨.MSProcess, smf0⟩ .MIDISeq).2.1 = .MIDISeq) ∧
    ((midiFSM "A.MID" envResume ⟨.MSProcess, smf0⟩ .MIDISeq).1.smf.paused = false ∧
     MidiAct.silence ∉ (midiFSM "A.MID" envResume ⟨.MSProcess, smf0⟩ .MIDISeq).2.2 ∧
     midiFSM "A.MID" envResume ⟨.MSProcess, smf0⟩ .MIDISeq =
       (⟨(midiFSM "A.MID" envQuiet ⟨.MSProcess, smf0⟩ .MIDISeq).1.s,
         { (midiFSM "A.MID" envQuiet ⟨.MSProcess, smf0⟩ .MIDISeq).1.smf with
             paused := false }⟩,
        (midiFSM "A.MID" envQuiet ⟨.MSProcess, smf0⟩ .MIDISeq).2.1,
        (midiFSM "A.MID" envQuiet ⟨.MSProcess, smf0⟩ .MIDISeq).2.2)) :=
  ⟨(midiFSM_pause_resume "A.MID" envPause ⟨.MSProcess, smf0⟩ .MIDISeq
      rfl rfl rfl).1 rfl,
   (midiFSM_pause_resume "A.MID" envResume ⟨.MSProcess, smf0⟩ .MIDISeq
      rfl rfl rfl).2 rfl rfl⟩

/-- Witness for `midiFSM_rewind_frame`: Rewind pressed mid-playback. -/
theorem midiFSM_rewind_frame_witness :
    (midiFSM "A.MID" envRewind ⟨.MSProcess, smf0⟩ .MIDISeq).2.1 = .MIDISeq ∧
    (envRewind.eof = false →
      (midiFSM "A.MID" envRewind ⟨.MSProcess, smf0⟩ .MIDISeq).1.s = .MSProcess) ∧
    (midiFSM "A.MID" envRewind ⟨.MSProcess, smf0⟩ .MIDISeq).1.smf.pos = 0 ∧
    (midiFSM "A.MID" envRewind ⟨.MSProcess, smf0⟩ .MIDISeq).1.smf.paused =
      smf0.paused ∧
    (midiFSM "A.MID" envRewind ⟨.MSProcess, smf0⟩ .MIDISeq).1.s =
      (midiFSM "A.MID" envQuiet ⟨.MSProcess, smf0⟩ .MIDISeq).1.s ∧
    (midiFSM "A.MID" envRewind ⟨.MSProcess, smf0⟩ .MIDISeq).2.2 =
      (midiFSM "A.MID" envQuiet ⟨.MSProcess, smf0⟩ .MIDISeq).2.2
        ++ [MidiAct.silence, MidiAct.restart] :=
  midiFSM_rewind_frame "A.MID" envRewind ⟨.MSProcess, smf0⟩ .MIDISeq rfl rfl

/-- A concrete Note On event (status 0x90, channel 3) for the witness. -/
def evNoteOn : midi_event := ⟨0, 3, 3, [0x90, 60, 100]⟩

/-- Witness for `midiCallback_spec` on a concrete Note On event. -/
theorem midiCallback_spec_witness :
    ((0x80 ≤ evNoteOn.data.headD 0 ∧ evNoteOn.data.headD 0 ≤ 0xe0) →
      midiCallback evNoteOn =
        (evNoteOn.data.headD 0 ||| evNoteOn.channel) ::
          (evNoteOn.data.drop 1).take (evNoteOn.size - 1) ∧
      (midiCallback evNoteOn).length = evNoteOn.size) ∧
    (¬(0x80 ≤ evNoteOn.data.headD 0 ∧ evNoteOn.data.headD 0 ≤ 0xe0) →
      midiCallback evNoteOn = evNoteOn.data.take evNoteOn.size ∧
      (midiCallback evNoteOn).length = evNoteOn.size) :=
  midiCallback_spec evNoteOn (by decide) (by decide)
